import Mathlib

/-!
Shallow embedding of src/aiphoto-tool.py, a CLI wrapper around a hosted
image-generation API.  Pure string manipulation (reference classification,
gs-path splitting) is translated directly; effectful code (image loading,
the API call, the global client) is modelled by explicit state passing with
the external world supplied as oracle functions.
-/

namespace AIPhotoTool

/-- Raw image bytes, one natural per byte. -/
abbrev Bytes := List Nat

/-- Python s.startswith(p), on the character sequence. -/
def pyStartsWith (p s : String) : Bool :=
  List.isPrefixOf p.toList s.toList

/-- The three reference kinds distinguished by get_local_path. -/
inductive RefClass
  | localPath
  | remoteHttp
  | remoteObjectStore
deriving DecidableEq, Repr

/-- The dispatch performed by get_local_path (lines 205-230): http:// or
https:// means URL download, gs:// means GCS download, anything else is a
local file. -/
def get_local_path_class (input_path : String) : RefClass :=
  if pyStartsWith "http://" input_path || pyStartsWith "https://" input_path then
    RefClass.remoteHttp
  else if pyStartsWith "gs://" input_path then
    RefClass.remoteObjectStore
  else
    RefClass.localPath

/-- Python s.split(sep, 1) on a character list: one element when sep is
absent, otherwise the part before the first sep and everything after it. -/
def splitOnce (sep : Char) (cs : List Char) : List (List Char) :=
  match cs.dropWhile (fun c => c != sep) with
  | [] => [cs]
  | _ :: post => [cs.takeWhile (fun c => c != sep), post]

inductive GcsFail
  | invalidFormat
deriving DecidableEq, Repr

/-- The validation performed by download_from_gcs (lines 156-177): require
the gs:// scheme, strip it, split once on the first slash and require
exactly two pieces.  A result of ok (bucket, blob) means the code passed
validation and proceeds to attempt the download with those components. -/
def download_from_gcs (gcs_path : String) : Except GcsFail (String × String) :=
  if pyStartsWith "gs://" gcs_path then
    match splitOnce '/' (gcs_path.toList.drop 5) with
    | [b, k] => Except.ok (String.mk b, String.mk k)
    | _ => Except.error GcsFail.invalidFormat
  else
    Except.error GcsFail.invalidFormat

/-- One element of the request payload: an image with a MIME type, or the
text prompt. -/
inductive ContentPart
  | imageBytes (data : Bytes) (mime : String)
  | textPrompt (text : String)
deriving DecidableEq, Repr

/-- The ways load_image_part / get_local_path can fail for one reference. -/
inductive ResolveFail
  | notFound (path : String)
  | downloadFailed (path : String)
  | invalidGcs (path : String)
deriving DecidableEq, Repr

/-- Oracle standing for load_image_part: resolving one reference either
yields its bytes and MIME type or the failure that the code reports. -/
abbrev Resolver := String → Except ResolveFail (Bytes × String)

def isOkE {ε α : Type} : Except ε α → Bool
  | Except.ok _ => true
  | Except.error _ => false

/-- The image part produced for a reference that resolves; the text-part
branch is unreachable whenever the resolver succeeded on the reference. -/
def resolvedPart (resolve : Resolver) (r : String) : ContentPart :=
  match resolve r with
  | Except.ok bm => ContentPart.imageBytes bm.1 bm.2
  | Except.error _ => ContentPart.textPrompt ""

/-- Python truthiness of an optional string argument: present and
non-empty. -/
def pyTruthy (o : Option String) : Bool :=
  match o with
  | some s => !s.isEmpty
  | none => false

/-- The references of the truthy slots, in slot order. -/
def presentRefs : List (Option String) → List String
  | [] => []
  | o :: rest => if pyTruthy o then o.getD "" :: presentRefs rest else presentRefs rest

/-- How a command handler terminates: it hands a content list to
call_gemini_api, or it returns early after a failed image load, or (compose
only) it returns early because no input slot was given. -/
inductive HandlerResult
  | apiCall (contents : List ContentPart) (output_file : String) (aspect_ratio : String)
  | abortResolve (e : ResolveFail)
  | abortNoInput
deriving DecidableEq, Repr

/-- A handler run: which references were passed to load_image_part, in
order, and how the handler terminated. -/
structure HandlerRun where
  attempted : List String
  result : HandlerResult
deriving DecidableEq, Repr

/-- The slot loop of handle_compose (lines 457-463): for each truthy slot
load the image; on the first failure return at once, loading no further
slot. -/
def loadSlots (resolve : Resolver) :
    List (Option String) → List String × Except ResolveFail (List ContentPart)
  | [] => ([], Except.ok [])
  | o :: rest =>
    if pyTruthy o then
      match resolve (o.getD "") with
      | Except.error e => ([o.getD ""], Except.error e)
      | Except.ok bm =>
        let t := loadSlots resolve rest
        (o.getD "" :: t.1, t.2.map (fun l => ContentPart.imageBytes bm.1 bm.2 :: l))
    else
      loadSlots resolve rest

structure GenerateArgs where
  output_file : String
  prompt : String
  aspect_ratio : String
deriving DecidableEq, Repr

structure SingleInArgs where
  input_file : String
  output_file : String
  prompt : String
  aspect_ratio : String
deriving DecidableEq, Repr

structure StyleArgs where
  input_file : String
  output_file : String
  prompt : String
  style_ref_image : Option String
  aspect_ratio : String
deriving DecidableEq, Repr

structure ComposeArgs where
  output_file : String
  prompt : String
  input_file1 : Option String
  input_file2 : Option String
  input_file3 : Option String
  aspect_ratio : String
deriving DecidableEq, Repr

/-- handle_generate (lines 394-400): contents is just the prompt. -/
def handle_generate (a : GenerateArgs) : HandlerRun :=
  ⟨[], HandlerResult.apiCall [ContentPart.textPrompt a.prompt] a.output_file a.aspect_ratio⟩

/-- handle_edit (lines 402-412): load the single input; on success call the
API with the image followed by the prompt, otherwise return silently. -/
def handle_edit (resolve : Resolver) (a : SingleInArgs) : HandlerRun :=
  match resolve a.input_file with
  | Except.error e => ⟨[a.input_file], HandlerResult.abortResolve e⟩
  | Except.ok bm =>
    ⟨[a.input_file],
     HandlerResult.apiCall [ContentPart.imageBytes bm.1 bm.2, ContentPart.textPrompt a.prompt]
       a.output_file a.aspect_ratio⟩

/-- handle_restore (lines 414-422), identical in shape to handle_edit. -/
def handle_restore (resolve : Resolver) (a : SingleInArgs) : HandlerRun :=
  match resolve a.input_file with
  | Except.error e => ⟨[a.input_file], HandlerResult.abortResolve e⟩
  | Except.ok bm =>
    ⟨[a.input_file],
     HandlerResult.apiCall [ContentPart.imageBytes bm.1 bm.2, ContentPart.textPrompt a.prompt]
       a.output_file a.aspect_ratio⟩

/-- handle_add_text (lines 472-480), identical in shape to handle_edit. -/
def handle_add_text (resolve : Resolver) (a : SingleInArgs) : HandlerRun :=
  match resolve a.input_file with
  | Except.error e => ⟨[a.input_file], HandlerResult.abortResolve e⟩
  | Except.ok bm =>
    ⟨[a.input_file],
     HandlerResult.apiCall [ContentPart.imageBytes bm.1 bm.2, ContentPart.textPrompt a.prompt]
       a.output_file a.aspect_ratio⟩

/-- handle_sketch_to_image (lines 482-490), identical in shape to
handle_edit. -/
def handle_sketch_to_image (resolve : Resolver) (a : SingleInArgs) : HandlerRun :=
  match resolve a.input_file with
  | Except.error e => ⟨[a.input_file], HandlerResult.abortResolve e⟩
  | Except.ok bm =>
    ⟨[a.input_file],
     HandlerResult.apiCall [ContentPart.imageBytes bm.1 bm.2, ContentPart.textPrompt a.prompt]
       a.output_file a.aspect_ratio⟩

/-- handle_style_transfer (lines 424-444): load the content image (abort on
failure), then, when the style slot is truthy, load the style image (abort
on failure), then append the prompt. -/
def handle_style_transfer (resolve : Resolver) (a : StyleArgs) : HandlerRun :=
  match resolve a.input_file with
  | Except.error e => ⟨[a.input_file], HandlerResult.abortResolve e⟩
  | Except.ok bm =>
    if pyTruthy a.style_ref_image then
      match resolve (a.style_ref_image.getD "") with
      | Except.error e =>
        ⟨[a.input_file, a.style_ref_image.getD ""], HandlerResult.abortResolve e⟩
      | Except.ok bm2 =>
        ⟨[a.input_file, a.style_ref_image.getD ""],
         HandlerResult.apiCall
           [ContentPart.imageBytes bm.1 bm.2, ContentPart.imageBytes bm2.1 bm2.2,
            ContentPart.textPrompt a.prompt]
           a.output_file a.aspect_ratio⟩
    else
      ⟨[a.input_file],
       HandlerResult.apiCall [ContentPart.imageBytes bm.1 bm.2, ContentPart.textPrompt a.prompt]
         a.output_file a.aspect_ratio⟩

/-- handle_compose (lines 446-470): iterate the three slots in declaration
order, loading the truthy ones; abort on the first failure; reject an
empty content list; otherwise append the prompt last and call the API. -/
def handle_compose (resolve : Resolver) (a : ComposeArgs) : HandlerRun :=
  let t := loadSlots resolve [a.input_file1, a.input_file2, a.input_file3]
  match t.2 with
  | Except.error e => ⟨t.1, HandlerResult.abortResolve e⟩
  | Except.ok contents =>
    if contents.isEmpty then ⟨t.1, HandlerResult.abortNoInput⟩
    else
      ⟨t.1,
       HandlerResult.apiCall (contents ++ [ContentPart.textPrompt a.prompt])
         a.output_file a.aspect_ratio⟩

/-- The raw flag values the compose subcommand receives before argparse
enforces requiredness (lines 551-560). -/
structure ComposeCliArgs where
  output_file : String
  prompt : Option String
  input_file1 : Option String
  input_file2 : Option String
  input_file3 : Option String
  aspect_ratio : String
deriving DecidableEq, Repr

inductive ParseFail
  | missingRequired (flag : String)
deriving DecidableEq, Repr

/-- Argparse requiredness for the compose subcommand: the prompt flag and
the input_file1 flag carry required=True (lines 554-555); the second and
third input slots stay optional. -/
def parse_compose (raw : ComposeCliArgs) : Except ParseFail ComposeArgs :=
  match raw.prompt with
  | none => Except.error (ParseFail.missingRequired "--prompt")
  | some p =>
    match raw.input_file1 with
    | none => Except.error (ParseFail.missingRequired "--input_file1")
    | some f1 =>
      Except.ok ⟨raw.output_file, p, some f1, raw.input_file2, raw.input_file3, raw.aspect_ratio⟩

/-- A full compose invocation: argparse first, then the handler. -/
def invoke_compose (resolve : Resolver) (raw : ComposeCliArgs) : Except ParseFail HandlerRun :=
  (parse_compose raw).map (handle_compose resolve)

/-- max_retries of the generation retry loop (line 309). -/
def max_retries : Nat := 3

/-- Python substring containment (needle in haystack) on char lists. -/
def containsSeq (needle : List Char) : List Char → Bool
  | [] => needle.isEmpty
  | c :: rest => List.isPrefixOf needle (c :: rest) || containsSeq needle rest

/-- The retryability test of line 321: the textual form of the error
mentions 503 or UNAVAILABLE. -/
def isTransient (msg : String) : Bool :=
  containsSeq "503".toList msg.toList || containsSeq "UNAVAILABLE".toList msg.toList

/-- What one run of the retry loop did: how many generate calls were made,
the sleeps between them in order, and the final result. -/
structure RetryTrace (α : Type) where
  attempts : Nat
  delays : List Nat
  result : Except String α

/-- The body of the retry loop (lines 312-327), one constructor call per
loop iteration.  The backend oracle gives the result of each attempt.  On an
error that mentions 503 or UNAVAILABLE, and while attempts remain, sleep
for retry_delay, double it and loop; otherwise re-raise.  The fuel always
equals max_retries minus the attempt index, so the zero-fuel branch is
unreachable from generate_with_retry. -/
def runRetriesAux {α : Type} (backend : Nat → Except String α) :
    Nat → Nat → Nat → RetryTrace α
  | 0, _, _ => ⟨0, [], Except.error ""⟩
  | fuel + 1, attempt, retry_delay =>
    match backend attempt with
    | Except.ok r => ⟨1, [], Except.ok r⟩
    | Except.error e =>
      if isTransient e = true then
        if attempt < max_retries - 1 then
          let t := runRetriesAux backend fuel (attempt + 1) (retry_delay * 2)
          ⟨t.attempts + 1, retry_delay :: t.delays, t.result⟩
        else ⟨1, [], Except.error e⟩
      else ⟨1, [], Except.error e⟩

/-- The whole retry loop: up to max_retries attempts, delay starting at 2
(line 310). -/
def generate_with_retry {α : Type} (backend : Nat → Except String α) : RetryTrace α :=
  runRetriesAux backend max_retries 0 2

/-- One part of a response candidate, with the two fields the handler
inspects (lines 342 and 360). -/
structure RespPart where
  inline_data : Option Bytes
  text : Option String
deriving DecidableEq, Repr

structure Candidate where
  parts : List RespPart
deriving DecidableEq, Repr

structure Response where
  candidates : List Candidate
deriving DecidableEq, Repr

/-- The test of line 342: part.inline_data and part.inline_data.data, that
is, the field is present and the byte string is non-empty. -/
def partIsImage (p : RespPart) : Bool :=
  match p.inline_data with
  | some d => !d.isEmpty
  | none => false

def imgBytes (p : RespPart) : Bytes :=
  p.inline_data.getD []

/-- The elif of line 360: reached only when the image test failed, and
requires a non-empty text. -/
def partIsText (p : RespPart) : Bool :=
  !partIsImage p &&
    (match p.text with
     | some t => !t.isEmpty
     | none => false)

/-- The mutable data of the response loop: the contents of the file at
output_path (none when no file exists), the has_image flag, and the texts
printed so far. -/
structure RHState where
  fs : Option Bytes
  has_image : Bool
  texts : List String
deriving DecidableEq, Repr

/-- The body of the inner part loop (lines 339-362): an image part is
written to output_path, overwriting it, and sets has_image; a text part is
printed; any other part is skipped. -/
def processPart (st : RHState) (p : RespPart) : RHState :=
  if partIsImage p then
    { st with fs := some (imgBytes p), has_image := true }
  else if partIsText p then
    { st with texts := st.texts ++ [p.text.getD ""] }
  else
    st

def processCandidate (st : RHState) (c : Candidate) : RHState :=
  c.parts.foldl processPart st

inductive Outcome
  | imageWritten
  | emptyNoImage
  | emptyNoCandidates
deriving DecidableEq, Repr

/-- The response handling of lines 332-371: no candidates is reported as a
valid empty result; otherwise the parts of every candidate are walked in order
and the run is classified by the has_image flag. -/
def processResponse (resp : Response) (fs0 : Option Bytes) : Outcome × RHState :=
  if resp.candidates.isEmpty then
    (Outcome.emptyNoCandidates, ⟨fs0, false, []⟩)
  else
    let st := resp.candidates.foldl processCandidate ⟨fs0, false, []⟩
    (if st.has_image then Outcome.imageWritten else Outcome.emptyNoImage, st)

/-- The bytes of the last image part of a part list, if any. -/
def lastImageBytes : List RespPart → Option Bytes
  | [] => none
  | p :: ps =>
    match lastImageBytes ps with
    | some b => some b
    | none => if partIsImage p then some (imgBytes p) else none

/-- The bytes of the last image part across all candidates, if any. -/
def lastImageBytesAll : List Candidate → Option Bytes
  | [] => none
  | c :: cs =>
    match lastImageBytesAll cs with
    | some b => some b
    | none => lastImageBytes c.parts

/-- call_gemini_api (lines 276-391) as a transformer of the output file:
empty contents are rejected before any call; the retry loop runs; an error
surfacing from it is caught and printed, leaving the file alone; a
response is handed to the response-handling loop. -/
def call_gemini_api (backend : Nat → Except String Response)
    (contents : List ContentPart) (fs0 : Option Bytes) : Option Bytes :=
  if contents.isEmpty then fs0
  else
    match (generate_with_retry backend).result with
    | Except.error _ => fs0
    | Except.ok resp => (processResponse resp fs0).2.fs

/-- A whole command invocation after argument parsing: the handler either
reaches call_gemini_api, which may rewrite the output file, or returns
early, in which case nothing touches the output file.  The boolean records
whether an API call was made. -/
def runInvocation (backend : Nat → Except String Response) (run : HandlerRun)
    (fs0 : Option Bytes) : Option Bytes × Bool :=
  match run.result with
  | HandlerResult.apiCall contents _ _ => (call_gemini_api backend contents fs0, true)
  | _ => (fs0, false)

/-- The module-level mutable client handles (lines 41 and 43), opaque
handles modelled as numbers. -/
structure GlobalState where
  client : Option Nat
  gcs_client : Option Nat
deriving DecidableEq, Repr

/-- The ambient world consulted by initialize_client: the project
environment variable, default-credential discovery yielding an optional
project id, the vertex client constructor per attempt, and the GCS client
constructor. -/
structure InitEnv where
  google_cloud_project : Option String
  auth : Except String (Option String)
  clientCtor : Nat → Except String Nat
  gcsCtor : Except String Nat

/-- The client-construction retry loop of lines 85-95: up to max_retries
attempts, re-raising on the last. -/
def ctorRetry (ctor : Nat → Except String Nat) : Nat → Nat → Except String Nat
  | 0, _ => Except.error ""
  | fuel + 1, attempt =>
    match ctor attempt with
    | Except.ok c => Except.ok c
    | Except.error e =>
      if attempt < max_retries - 1 then ctorRetry ctor fuel (attempt + 1)
      else Except.error e

/-- The project-id resolution of lines 64-80: the environment variable
when set, the project carried by the credentials otherwise; empty means
undetermined, which raises the caught ValueError. -/
def projectId (env : InitEnv) (project_id_auth : Option String) : String :=
  if env.google_cloud_project.getD "" = "" then project_id_auth.getD ""
  else env.google_cloud_project.getD ""

/-- initialize_client (lines 55-113).  A set client global is returned at
once.  Otherwise credentials and a project id are resolved; any failure is
caught and reported by returning none.  The vertex client assignment of
line 88 commits to the global even when the later GCS-client construction
fails. -/
def init_client (env : InitEnv) (s : GlobalState) : GlobalState × Option Nat :=
  match s.client with
  | some c => (s, some c)
  | none =>
    match env.auth with
    | Except.error _ => (s, none)
    | Except.ok project_id_auth =>
      if projectId env project_id_auth = "" then (s, none)
      else
        match ctorRetry env.clientCtor max_retries 0 with
        | Except.error _ => (s, none)
        | Except.ok cl =>
          match env.gcsCtor with
          | Except.error _ => ({ s with client := some cl }, none)
          | Except.ok g => ({ s with client := some cl, gcs_client := some g }, some cl)

/-- A resolver for witnesses: every reference yields the same bytes. -/
def resolverW : Resolver := fun _ => Except.ok ([7], "image/png")

/-- A backend for witnesses that always reports a transient error. -/
def transientBackend : Nat → Except String Nat := fun _ => Except.error "503 unavailable"

/-- A backend for witnesses that reports a non-transient error. -/
def hardBackend : Nat → Except String Nat := fun _ => Except.error "PERMISSION_DENIED"

/-- A response backend for witnesses that always fails hard. -/
def hardResponseBackend : Nat → Except String Response :=
  fun _ => Except.error "PERMISSION_DENIED"

/-- A fully working initialization environment for witnesses. -/
def envFirstW : InitEnv :=
  ⟨some "proj", Except.ok (some "proj2"), fun _ => Except.ok 7, Except.ok 8⟩

/-- A broken initialization environment for witnesses, to show reuse
ignores it. -/
def envSecondW : InitEnv :=
  ⟨none, Except.error "no credentials", fun _ => Except.error "down", Except.error "down"⟩

/-! Helper lemmas. -/

theorem dropWhile_head_pred_false (p : Char → Bool) :
    ∀ (cs hd0 : List Char) (c0 : Char), cs.dropWhile p = c0 :: hd0 → p c0 = false := by
  intro cs
  induction cs with
  | nil => intro hd0 c0 h; simp [List.dropWhile] at h
  | cons c rest ih =>
    intro hd0 c0 h
    by_cases hp : p c
    · rw [List.dropWhile_cons_of_pos hp] at h
      exact ih _ _ h
    · rw [List.dropWhile_cons_of_neg hp] at h
      cases h
      simpa using hp

theorem splitOnce_no_sep {sep : Char} {cs : List Char} (h : sep ∉ cs) :
    splitOnce sep cs = [cs] := by
  unfold splitOnce
  have hd : cs.dropWhile (fun c => c != sep) = [] := by
    rw [List.dropWhile_eq_nil_iff]
    intro x hx
    simp only [bne_iff_ne, ne_eq]
    rintro rfl
    exact h hx
  rw [hd]

theorem splitOnce_sep_mem {sep : Char} {cs : List Char} (h : sep ∈ cs) :
    ∃ pre post, splitOnce sep cs = [pre, post] ∧ cs = pre ++ sep :: post ∧ sep ∉ pre := by
  unfold splitOnce
  cases hd : cs.dropWhile (fun c => c != sep) with
  | nil =>
    rw [List.dropWhile_eq_nil_iff] at hd
    have := hd sep h
    simp at this
  | cons c0 post =>
    have hc0 : c0 = sep := by
      have := dropWhile_head_pred_false (fun c => c != sep) cs post c0 hd
      simpa using this
    refine ⟨cs.takeWhile (fun c => c != sep), post, rfl, ?_, ?_⟩
    · conv_lhs => rw [← List.takeWhile_append_dropWhile (p := fun c => c != sep) (l := cs)]
      rw [hd, hc0]
    · intro hmem
      have := List.mem_takeWhile_imp hmem
      simp at this

/-! Claim theorems. -/

/-- Claim C3, counterexample: the reference gs://bucket/ has an empty key
component, yet download_from_gcs accepts it, proceeding to the download
attempt with bucket "bucket" and key "", instead of rejecting the
reference as invalid. -/
theorem C3_counterexample :
    download_from_gcs "gs://bucket/" = Except.ok ("bucket", "") ∧
    download_from_gcs "gs://bucket/" ≠ Except.error GcsFail.invalidFormat := by
  refine ⟨rfl, fun hc => ?_⟩
  have hc2 : (Except.ok (("bucket" : String), ("" : String)) :
      Except GcsFail (String × String)) = Except.error GcsFail.invalidFormat := hc
  exact Except.noConfusion hc2

/-- Claim C3, amended: for a gs:// reference, resolution fails with the
invalid-format error exactly when the remainder after the scheme contains
no slash; when validation passes, the remainder is split at its first
slash into a bucket and a key which may be empty, and the download is
attempted with them. -/
theorem C3_gcs_validation (s : String) (h : pyStartsWith "gs://" s = true) :
    (download_from_gcs s = Except.error GcsFail.invalidFormat ↔ '/' ∉ s.toList.drop 5) ∧
    (∀ b k, download_from_gcs s = Except.ok (b, k) →
      b.toList ++ '/' :: k.toList = s.toList.drop 5 ∧ '/' ∉ b.toList) := by
  have hif : download_from_gcs s =
      (match splitOnce '/' (s.toList.drop 5) with
       | [b, k] => Except.ok (String.mk b, String.mk k)
       | _ => Except.error GcsFail.invalidFormat) := by
    simp [download_from_gcs, h]
  by_cases hm : '/' ∈ s.toList.drop 5
  · obtain ⟨pre, post, hsp, hcs, hpre⟩ := splitOnce_sep_mem hm
    rw [hsp] at hif
    constructor
    · rw [hif]
      apply iff_of_false
      · intro hc
        have hc2 : (Except.ok (String.mk pre, String.mk post) :
            Except GcsFail (String × String)) = Except.error GcsFail.invalidFormat := hc
        exact Except.noConfusion hc2
      · simpa using hm
    · intro b k hbk
      rw [hif] at hbk
      have hb : b = String.mk pre := by
        cases hbk
        rfl
      have hk : k = String.mk post := by
        cases hbk
        rfl
      subst hb
      subst hk
      exact ⟨hcs.symm, hpre⟩
  · rw [splitOnce_no_sep hm] at hif
    constructor
    · rw [hif]
      exact iff_of_true rfl hm
    · intro b k hbk
      rw [hif] at hbk
      simp at hbk

/-- Claim C3, witness for the amended theorem at a concrete reference. -/
theorem C3_gcs_validation_witness :
    pyStartsWith "gs://" "gs://b/k" = true ∧
    (download_from_gcs "gs://b/k" = Except.error GcsFail.invalidFormat ↔
      '/' ∉ "gs://b/k".toList.drop 5) :=
  ⟨by decide, (C3_gcs_validation "gs://b/k" (by decide)).1⟩

/-- Claim C6: reference classification is a total function of the string
prefix alone: http:// or https:// selects the remote HTTP class, otherwise
gs:// selects the object-store class, and everything else is a local path;
the three cases are mutually exclusive and exhaustive, and the
classification consults nothing but the string. -/
theorem C6_classification (s : String) :
    (get_local_path_class s = RefClass.remoteHttp ↔
      (pyStartsWith "http://" s = true ∨ pyStartsWith "https://" s = true)) ∧
    (get_local_path_class s = RefClass.remoteObjectStore ↔
      (¬(pyStartsWith "http://" s = true ∨ pyStartsWith "https://" s = true) ∧
        pyStartsWith "gs://" s = true)) ∧
    (get_local_path_class s = RefClass.localPath ↔
      (¬(pyStartsWith "http://" s = true ∨ pyStartsWith "https://" s = true) ∧
        ¬pyStartsWith "gs://" s = true)) := by
  unfold get_local_path_class
  cases h1 : pyStartsWith "http://" s <;> cases h2 : pyStartsWith "https://" s <;>
    cases h3 : pyStartsWith "gs://" s <;> simp

/-- Claim C6, witness at a concrete object-store reference. -/
theorem C6_classification_witness :
    get_local_path_class "gs://bucket/k.png" = RefClass.remoteObjectStore :=
  (C6_classification "gs://bucket/k.png").2.1.mpr (by decide)

/-- Claim C4: when every generate call raises a transient error the loop
makes exactly max_retries = 3 attempts with doubling sleeps 2 then 4 and
surfaces the error of the last attempt; a non-transient error on the first call
yields exactly one attempt, no sleep, and that error. -/
theorem C4_retry_bound {α : Type} (backend : Nat → Except String α) :
    ((∀ n, n < max_retries → ∃ e, backend n = Except.error e ∧ isTransient e = true) →
      (generate_with_retry backend).attempts = 3 ∧
      (generate_with_retry backend).delays = [2, 4] ∧
      (generate_with_retry backend).result = backend 2) ∧
    (∀ e, backend 0 = Except.error e → isTransient e = false →
      generate_with_retry backend = ⟨1, [], Except.error e⟩) := by
  constructor
  · intro h
    obtain ⟨e0, h0, t0⟩ := h 0 (by decide)
    obtain ⟨e1, h1, t1⟩ := h 1 (by decide)
    obtain ⟨e2, h2, t2⟩ := h 2 (by decide)
    simp [generate_with_retry, runRetriesAux, max_retries, h0, h1, h2, t0, t1, t2]
  · intro e h0 ht
    simp [generate_with_retry, runRetriesAux, max_retries, h0, ht]

/-- Claim C4, witness: the all-transient backend is driven through three
attempts; the non-transient backend stops after one. -/
theorem C4_retry_bound_witness :
    ((generate_with_retry transientBackend).attempts = 3 ∧
      (generate_with_retry transientBackend).delays = [2, 4]) ∧
    generate_with_retry hardBackend = ⟨1, [], Except.error "PERMISSION_DENIED"⟩ :=
  ⟨⟨((C4_retry_bound transientBackend).1
        (fun _ _ => ⟨"503 unavailable", rfl, by decide⟩)).1,
    ((C4_retry_bound transientBackend).1
        (fun _ _ => ⟨"503 unavailable", rfl, by decide⟩)).2.1⟩,
   (C4_retry_bound hardBackend).2 "PERMISSION_DENIED" rfl (by decide)⟩

theorem processPart_has_image (st : RHState) (p : RespPart) :
    (processPart st p).has_image = (st.has_image || partIsImage p) := by
  cases hI : partIsImage p
  · simp only [processPart, hI, Bool.false_eq_true, if_false, Bool.or_false]
    split <;> rfl
  · simp [processPart, hI]

theorem processPart_fs (st : RHState) (p : RespPart) :
    (processPart st p).fs = (if partIsImage p then some (imgBytes p) else st.fs) := by
  cases hI : partIsImage p
  · simp only [processPart, hI, Bool.false_eq_true, if_false]
    split <;> rfl
  · simp [processPart, hI]

theorem foldl_parts_has_image (ps : List RespPart) :
    ∀ st : RHState, (ps.foldl processPart st).has_image = (st.has_image || ps.any partIsImage) := by
  induction ps with
  | nil => intro st; simp
  | cons p ps ih =>
    intro st
    simp only [List.foldl_cons, List.any_cons, ih, processPart_has_image, Bool.or_assoc]

theorem foldl_parts_fs (ps : List RespPart) :
    ∀ st : RHState, (ps.foldl processPart st).fs =
      (match lastImageBytes ps with
       | some b => some b
       | none => st.fs) := by
  induction ps with
  | nil => intro st; simp [lastImageBytes]
  | cons p ps ih =>
    intro st
    simp only [List.foldl_cons, ih, lastImageBytes]
    cases hL : lastImageBytes ps
    · simp only [processPart_fs]
      cases hI : partIsImage p <;> simp [hI]
    · simp

theorem foldl_cands_has_image (cs : List Candidate) :
    ∀ st : RHState, (cs.foldl processCandidate st).has_image =
      (st.has_image || cs.any (fun c => c.parts.any partIsImage)) := by
  induction cs with
  | nil => intro st; simp
  | cons c cs ih =>
    intro st
    simp only [List.foldl_cons, List.any_cons, ih]
    rw [show processCandidate st c = c.parts.foldl processPart st from rfl,
      foldl_parts_has_image, Bool.or_assoc]

theorem foldl_cands_fs (cs : List Candidate) :
    ∀ st : RHState, (cs.foldl processCandidate st).fs =
      (match lastImageBytesAll cs with
       | some b => some b
       | none => st.fs) := by
  induction cs with
  | nil => intro st; simp [lastImageBytesAll]
  | cons c cs ih =>
    intro st
    cases hL : lastImageBytesAll cs
    · simp only [List.foldl_cons, ih, lastImageBytesAll, hL]
      rw [show processCandidate st c = c.parts.foldl processPart st from rfl,
        foldl_parts_fs]
    · simp only [List.foldl_cons, ih, lastImageBytesAll, hL]

theorem lastImageBytes_none_of_all_false (ps : List RespPart)
    (h : ∀ p ∈ ps, partIsImage p = false) : lastImageBytes ps = none := by
  induction ps with
  | nil => rfl
  | cons p ps ih =>
    have hp := h p (by simp)
    have hrest := ih (fun q hq => h q (by simp [hq]))
    simp [lastImageBytes, hrest, hp]

theorem lastImageBytes_last (pre : List RespPart) (p : RespPart) (post : List RespPart)
    (hp : partIsImage p = true) (hpost : ∀ q ∈ post, partIsImage q = false) :
    lastImageBytes (pre ++ p :: post) = some (imgBytes p) := by
  induction pre with
  | nil =>
    simp [lastImageBytes, lastImageBytes_none_of_all_false post hpost, hp]
  | cons x pre ih =>
    simp [lastImageBytes, ih]

/-- Claim C2, counterexample: two responses share the same first candidate,
a single text part, but the second response carries an extra candidate
holding an image; the classification differs, so parts of candidates after
the first do affect the outcome. -/
theorem C2_counterexample :
    (Response.mk [Candidate.mk [RespPart.mk none (some "a")]]).candidates.head? =
      (Response.mk [Candidate.mk [RespPart.mk none (some "a")],
        Candidate.mk [RespPart.mk (some [1]) none]]).candidates.head? ∧
    (processResponse (Response.mk [Candidate.mk [RespPart.mk none (some "a")]]) none).1 =
      Outcome.emptyNoImage ∧
    (processResponse (Response.mk [Candidate.mk [RespPart.mk none (some "a")],
        Candidate.mk [RespPart.mk (some [1]) none]]) none).1 =
      Outcome.imageWritten :=
  ⟨rfl, rfl, rfl⟩

/-- Claim C2, amended: the response loop walks the parts of every
candidate in order, not only the first; the outcome is ImageWritten
exactly when some part of some candidate carries a non-empty image
payload, and the file at output_path ends up holding the bytes of the last
such payload across all candidates, untouched when there is none. -/
theorem C2_all_candidates (resp : Response) (fs0 : Option Bytes)
    (h : resp.candidates ≠ []) :
    ((processResponse resp fs0).1 = Outcome.imageWritten ↔
      resp.candidates.any (fun c => c.parts.any partIsImage) = true) ∧
    ((processResponse resp fs0).2.fs =
      (match lastImageBytesAll resp.candidates with
       | some b => some b
       | none => fs0)) := by
  have hne : resp.candidates.isEmpty = false := by
    cases hc : resp.candidates
    · exact absurd hc h
    · rfl
  constructor
  · simp only [processResponse, hne, Bool.false_eq_true, if_false]
    rw [foldl_cands_has_image]
    cases hA : resp.candidates.any (fun c => c.parts.any partIsImage) <;> simp [hA]
  · simp only [processResponse, hne, Bool.false_eq_true, if_false]
    rw [foldl_cands_fs]

/-- Claim C2, witness for the amended theorem: a two-candidate response
whose image sits in the second candidate is classified ImageWritten and
its bytes land in the output file. -/
theorem C2_all_candidates_witness :
    (processResponse (Response.mk [Candidate.mk [RespPart.mk none (some "a")],
        Candidate.mk [RespPart.mk (some [1]) none]]) none).1 =
      Outcome.imageWritten :=
  (C2_all_candidates (Response.mk [Candidate.mk [RespPart.mk none (some "a")],
      Candidate.mk [RespPart.mk (some [1]) none]]) none (by decide)).1.mpr (by decide)

/-- Claim C5: a response with zero candidates is reported as the empty
no-candidate outcome, leaving the output file alone; a one-candidate
response with no image part is the empty no-image outcome, also leaving
the file alone; a one-candidate response whose parts contain an image
payload, whatever text parts surround it, is classified ImageWritten and
the output file is overwritten with exactly the bytes of that payload. -/
theorem C5_outcomes (resp : Response) (fs0 : Option Bytes) :
    (resp.candidates = [] →
      processResponse resp fs0 = (Outcome.emptyNoCandidates, ⟨fs0, false, []⟩)) ∧
    (∀ c, resp.candidates = [c] → (∀ p ∈ c.parts, partIsImage p = false) →
      (processResponse resp fs0).1 = Outcome.emptyNoImage ∧
      (processResponse resp fs0).2.fs = fs0) ∧
    (∀ c pre p post, resp.candidates = [c] → c.parts = pre ++ p :: post →
      partIsImage p = true → (∀ q ∈ post, partIsImage q = false) →
      (processResponse resp fs0).1 = Outcome.imageWritten ∧
      (processResponse resp fs0).2.fs = some (imgBytes p)) := by
  refine ⟨?_, ?_, ?_⟩
  · intro hc
    simp [processResponse, hc]
  · intro c hc hparts
    have hA : c.parts.any partIsImage = false := by
      cases hA2 : c.parts.any partIsImage
      · rfl
      · obtain ⟨q, hq, hqi⟩ := List.any_eq_true.mp hA2
        rw [hparts q hq] at hqi
        exact absurd hqi (by simp)
    constructor
    · simp only [processResponse, hc, List.isEmpty_cons, Bool.false_eq_true, if_false]
      rw [show ([c].foldl processCandidate ⟨fs0, false, []⟩) =
        c.parts.foldl processPart ⟨fs0, false, []⟩ from rfl]
      rw [foldl_parts_has_image]
      simp [hA]
    · simp only [processResponse, hc, List.isEmpty_cons, Bool.false_eq_true, if_false]
      rw [show ([c].foldl processCandidate ⟨fs0, false, []⟩) =
        c.parts.foldl processPart ⟨fs0, false, []⟩ from rfl]
      rw [foldl_parts_fs, lastImageBytes_none_of_all_false c.parts hparts]
  · intro c pre p post hc hsplit hp hpost
    have hL : lastImageBytes c.parts = some (imgBytes p) := by
      rw [hsplit]
      exact lastImageBytes_last pre p post hp hpost
    have hA : c.parts.any partIsImage = true := by
      rw [hsplit]
      refine List.any_eq_true.mpr ⟨p, by simp, by simp [hp]⟩
    constructor
    · simp only [processResponse, hc, List.isEmpty_cons, Bool.false_eq_true, if_false]
      rw [show ([c].foldl processCandidate ⟨fs0, false, []⟩) =
        c.parts.foldl processPart ⟨fs0, false, []⟩ from rfl]
      rw [foldl_parts_has_image]
      simp [hA]
    · simp only [processResponse, hc, List.isEmpty_cons, Bool.false_eq_true, if_false]
      rw [show ([c].foldl processCandidate ⟨fs0, false, []⟩) =
        c.parts.foldl processPart ⟨fs0, false, []⟩ from rfl]
      rw [foldl_parts_fs, hL]

/-- Claim C5, witness: a candidate with a text part, an image part and a
trailing text part is classified ImageWritten with the image bytes
written, overwriting the previous file contents. -/
theorem C5_outcomes_witness :
    (processResponse (Response.mk [Candidate.mk
        [RespPart.mk none (some "t1"), RespPart.mk (some [3, 4]) none,
         RespPart.mk none (some "t2")]]) (some [9])).1 = Outcome.imageWritten ∧
    (processResponse (Response.mk [Candidate.mk
        [RespPart.mk none (some "t1"), RespPart.mk (some [3, 4]) none,
         RespPart.mk none (some "t2")]]) (some [9])).2.fs = some [3, 4] :=
  (C5_outcomes (Response.mk [Candidate.mk
      [RespPart.mk none (some "t1"), RespPart.mk (some [3, 4]) none,
       RespPart.mk none (some "t2")]]) (some [9])).2.2
    (Candidate.mk [RespPart.mk none (some "t1"), RespPart.mk (some [3, 4]) none,
      RespPart.mk none (some "t2")])
    [RespPart.mk none (some "t1")] (RespPart.mk (some [3, 4]) none)
    [RespPart.mk none (some "t2")] rfl rfl (by decide) (by decide)

theorem loadSlots_all_ok (resolve : Resolver) :
    ∀ l : List (Option String),
      (∀ r ∈ presentRefs l, isOkE (resolve r) = true) →
      loadSlots resolve l =
        (presentRefs l, Except.ok ((presentRefs l).map (resolvedPart resolve))) := by
  intro l
  induction l with
  | nil => intro _; rfl
  | cons o rest ih =>
    intro h
    cases hT : pyTruthy o
    · have h2 : ∀ r ∈ presentRefs rest, isOkE (resolve r) = true :=
        fun r hrr => h r (by simpa [presentRefs, hT] using hrr)
      simp only [loadSlots, hT, Bool.false_eq_true, if_false, presentRefs]
      exact ih h2
    · have hhead : isOkE (resolve (o.getD "")) = true := h _ (by simp [presentRefs, hT])
      cases hr : resolve (o.getD "") with
      | error e => rw [hr] at hhead; simp [isOkE] at hhead
      | ok bm =>
        have h2 : ∀ r ∈ presentRefs rest, isOkE (resolve r) = true :=
          fun r hrr => h r (by simp [presentRefs, hT]; exact Or.inr hrr)
        simp only [loadSlots, hT, if_true, hr, presentRefs]
        rw [ih h2]
        simp [resolvedPart, hr, Except.map]

theorem loadSlots_failure (resolve : Resolver) :
    ∀ (pre : List (Option String)) (r : String) (post : List (Option String)) (e : ResolveFail),
      (∀ r2 ∈ presentRefs pre, isOkE (resolve r2) = true) →
      r.isEmpty = false →
      resolve r = Except.error e →
      loadSlots resolve (pre ++ some r :: post) = (presentRefs pre ++ [r], Except.error e) := by
  intro pre
  induction pre with
  | nil =>
    intro r post e _ hne hr
    have hT : pyTruthy (some r) = true := by simp [pyTruthy, hne]
    simp [loadSlots, hT, hr, presentRefs]
  | cons o rest ih =>
    intro r post e h hne hr
    cases hT : pyTruthy o
    · simp only [List.cons_append, loadSlots, hT, Bool.false_eq_true, if_false, presentRefs]
      exact ih r post e (fun r2 h2 => h r2 (by simpa [presentRefs, hT] using h2)) hne hr
    · have hhead : isOkE (resolve (o.getD "")) = true := h _ (by simp [presentRefs, hT])
      cases hro : resolve (o.getD "") with
      | error e2 => rw [hro] at hhead; simp [isOkE] at hhead
      | ok bm =>
        have ihh := ih r post e
          (fun r2 h2 => h r2 (by simp [presentRefs, hT]; exact Or.inr h2)) hne hr
        simp only [List.cons_append, loadSlots, hT, if_true, hro, presentRefs,
          List.append_eq]
        rw [ihh]
        simp [Except.map]

/-- Claim C1, counterexample: a compose invocation with input_file1 and
input_file3 absent and input_file2 present is rejected by the argument
parser, because the input_file1 flag is declared required; no request is
assembled at all, against the claim of a two-part request. -/
theorem C1_counterexample :
    invoke_compose resolverW
        (ComposeCliArgs.mk "out.png" (some "P") none (some "b.png") none "16:9") =
      Except.error (ParseFail.missingRequired "--input_file1") :=
  rfl

/-- Claim C1, amended: the CLI makes input_file1 mandatory, so the claimed
invocation never parses; at the handler level, an argument record with
only the second slot present and a resolvable reference does assemble
exactly the two parts image then prompt. -/
theorem C1_slot2_only (resolve : Resolver) (raw : ComposeCliArgs) (a : ComposeArgs)
    (r : String) (b : Bytes) (m : String) :
    (raw.input_file1 = none → isOkE (parse_compose raw) = false) ∧
    (a.input_file1 = none → a.input_file2 = some r → a.input_file3 = none →
      r.isEmpty = false → resolve r = Except.ok (b, m) →
      handle_compose resolve a =
        ⟨[r], HandlerResult.apiCall
          [ContentPart.imageBytes b m, ContentPart.textPrompt a.prompt]
          a.output_file a.aspect_ratio⟩) := by
  constructor
  · intro h1
    cases hp : raw.prompt <;> simp [parse_compose, hp, h1, isOkE]
  · intro h1 h2 h3 hne hr
    simp [handle_compose, loadSlots, pyTruthy, h1, h2, h3, hne, hr, Except.map]

/-- Claim C1, witness for the amended theorem at concrete arguments. -/
theorem C1_slot2_only_witness :
    handle_compose resolverW (ComposeArgs.mk "out.png" "P" none (some "b.png") none "16:9") =
      ⟨["b.png"], HandlerResult.apiCall
        [ContentPart.imageBytes [7] "image/png", ContentPart.textPrompt "P"]
        "out.png" "16:9"⟩ :=
  (C1_slot2_only resolverW
      (ComposeCliArgs.mk "out.png" (some "P") none (some "b.png") none "16:9")
      (ComposeArgs.mk "out.png" "P" none (some "b.png") none "16:9")
      "b.png" [7] "image/png").2 rfl rfl rfl (by decide) rfl

/-- Claim C7: whenever every present image slot resolves, the assembled
content list is the image parts in slot-declaration order followed by the
prompt as final element, for every command; pure generation yields the
single text part. -/
theorem C7_ordering (resolve : Resolver) (g : GenerateArgs) (ed re ad sk : SingleInArgs)
    (sa : StyleArgs) (a : ComposeArgs) :
    ((handle_generate g).result =
      HandlerResult.apiCall [ContentPart.textPrompt g.prompt] g.output_file g.aspect_ratio) ∧
    (∀ b m, resolve ed.input_file = Except.ok (b, m) →
      (handle_edit resolve ed).result = HandlerResult.apiCall
        [ContentPart.imageBytes b m, ContentPart.textPrompt ed.prompt]
        ed.output_file ed.aspect_ratio) ∧
    (∀ b m, resolve re.input_file = Except.ok (b, m) →
      (handle_restore resolve re).result = HandlerResult.apiCall
        [ContentPart.imageBytes b m, ContentPart.textPrompt re.prompt]
        re.output_file re.aspect_ratio) ∧
    (∀ b m, resolve ad.input_file = Except.ok (b, m) →
      (handle_add_text resolve ad).result = HandlerResult.apiCall
        [ContentPart.imageBytes b m, ContentPart.textPrompt ad.prompt]
        ad.output_file ad.aspect_ratio) ∧
    (∀ b m, resolve sk.input_file = Except.ok (b, m) →
      (handle_sketch_to_image resolve sk).result = HandlerResult.apiCall
        [ContentPart.imageBytes b m, ContentPart.textPrompt sk.prompt]
        sk.output_file sk.aspect_ratio) ∧
    (∀ b m, pyTruthy sa.style_ref_image = false → resolve sa.input_file = Except.ok (b, m) →
      (handle_style_transfer resolve sa).result = HandlerResult.apiCall
        [ContentPart.imageBytes b m, ContentPart.textPrompt sa.prompt]
        sa.output_file sa.aspect_ratio) ∧
    (∀ sref b m b2 m2, sa.style_ref_image = some sref → sref.isEmpty = false →
      resolve sa.input_file = Except.ok (b, m) → resolve sref = Except.ok (b2, m2) →
      (handle_style_transfer resolve sa).result = HandlerResult.apiCall
        [ContentPart.imageBytes b m, ContentPart.imageBytes b2 m2,
         ContentPart.textPrompt sa.prompt]
        sa.output_file sa.aspect_ratio) ∧
    ((∀ r ∈ presentRefs [a.input_file1, a.input_file2, a.input_file3],
        isOkE (resolve r) = true) →
      presentRefs [a.input_file1, a.input_file2, a.input_file3] ≠ [] →
      (handle_compose resolve a).result = HandlerResult.apiCall
        ((presentRefs [a.input_file1, a.input_file2, a.input_file3]).map
            (resolvedPart resolve) ++ [ContentPart.textPrompt a.prompt])
        a.output_file a.aspect_ratio) := by
  refine ⟨rfl, ?_, ?_, ?_, ?_, ?_, ?_, ?_⟩
  · intro b m hr; simp [handle_edit, hr]
  · intro b m hr; simp [handle_restore, hr]
  · intro b m hr; simp [handle_add_text, hr]
  · intro b m hr; simp [handle_sketch_to_image, hr]
  · intro b m hT hr; simp [handle_style_transfer, hr, hT]
  · intro sref b m b2 m2 hs hne hr hr2
    simp [handle_style_transfer, hr, hs, hr2, pyTruthy, hne]
  · intro hok hne
    have hload := loadSlots_all_ok resolve [a.input_file1, a.input_file2, a.input_file3] hok
    cases hp : presentRefs [a.input_file1, a.input_file2, a.input_file3] with
    | nil => exact absurd hp hne
    | cons x xs =>
      rw [hp] at hload
      simp [handle_compose, hload, hp]

/-- Claim C7, witness: a compose run with slots one and three present and
slot two absent assembles exactly image one, image three, prompt. -/
theorem C7_ordering_witness :
    (handle_compose resolverW
        (ComposeArgs.mk "o.png" "P" (some "a.png") none (some "c.png") "16:9")).result =
      HandlerResult.apiCall
        ((presentRefs [some "a.png", none, some "c.png"]).map (resolvedPart resolverW) ++
          [ContentPart.textPrompt "P"]) "o.png" "16:9" :=
  (C7_ordering resolverW (GenerateArgs.mk "o" "p" "1:1")
      (SingleInArgs.mk "i" "o" "p" "1:1") (SingleInArgs.mk "i" "o" "p" "1:1")
      (SingleInArgs.mk "i" "o" "p" "1:1") (SingleInArgs.mk "i" "o" "p" "1:1")
      (StyleArgs.mk "i" "o" "p" none "1:1")
      (ComposeArgs.mk "o.png" "P" (some "a.png") none (some "c.png") "16:9")).2.2.2.2.2.2.2
    (fun _ _ => rfl) (by decide)

/-- Claim C8: in a multi-image command, when the image of slot k fails to
resolve and all earlier present slots resolve, the handler stops at slot
k: the attempted references are exactly the earlier present ones plus slot
k, no API call happens, and the surfaced failure is the failure of slot k.
Stated for the compose slot loop at an arbitrary position and for both
slots of style transfer. -/
theorem C8_failfast (resolve : Resolver) (a : ComposeArgs) (sa : StyleArgs) :
    (∀ (pre : List (Option String)) (r : String) (post : List (Option String))
        (e : ResolveFail),
      [a.input_file1, a.input_file2, a.input_file3] = pre ++ some r :: post →
      (∀ r2 ∈ presentRefs pre, isOkE (resolve r2) = true) →
      r.isEmpty = false →
      resolve r = Except.error e →
      handle_compose resolve a = ⟨presentRefs pre ++ [r], HandlerResult.abortResolve e⟩) ∧
    (∀ e, resolve sa.input_file = Except.error e →
      handle_style_transfer resolve sa = ⟨[sa.input_file], HandlerResult.abortResolve e⟩) ∧
    (∀ sref b m e, sa.style_ref_image = some sref → sref.isEmpty = false →
      resolve sa.input_file = Except.ok (b, m) → resolve sref = Except.error e →
      handle_style_transfer resolve sa =
        ⟨[sa.input_file, sref], HandlerResult.abortResolve e⟩) := by
  refine ⟨?_, ?_, ?_⟩
  · intro pre r post e hsl hpre hne hr
    have hload := loadSlots_failure resolve pre r post e hpre hne hr
    rw [← hsl] at hload
    simp [handle_compose, hload]
  · intro e hr
    simp [handle_style_transfer, hr]
  · intro sref b m e hs hne hr hr2
    simp [handle_style_transfer, hr, hs, hr2, pyTruthy, hne]

/-- Claim C8, witness: slot one resolves, slot two fails, slot three is
never attempted and the failure surfaced is that of slot two. -/
theorem C8_failfast_witness :
    handle_compose
        (fun r => if r = "bad.png" then Except.error (ResolveFail.notFound "bad.png")
          else Except.ok ([7], "image/png"))
        (ComposeArgs.mk "o" "P" (some "a.png") (some "bad.png") (some "c.png") "16:9") =
      ⟨["a.png", "bad.png"], HandlerResult.abortResolve (ResolveFail.notFound "bad.png")⟩ :=
  (C8_failfast
      (fun r => if r = "bad.png" then Except.error (ResolveFail.notFound "bad.png")
        else Except.ok ([7], "image/png"))
      (ComposeArgs.mk "o" "P" (some "a.png") (some "bad.png") (some "c.png") "16:9")
      (StyleArgs.mk "i" "o" "p" none "1:1")).1
    [some "a.png"] "bad.png" [some "c.png"] (ResolveFail.notFound "bad.png")
    rfl (by decide) (by decide) rfl

/-- Claim C10: for each image-taking command, a failed image resolution
means the handler returns before call_gemini_api: no API call is made and
the file at output_path keeps exactly its prior contents. -/
theorem C10_no_write (resolve : Resolver) (backend : Nat → Except String Response)
    (fs0 : Option Bytes) (ed re ad sk : SingleInArgs) (sa : StyleArgs) (a : ComposeArgs) :
    (∀ e, resolve ed.input_file = Except.error e →
      runInvocation backend (handle_edit resolve ed) fs0 = (fs0, false)) ∧
    (∀ e, resolve re.input_file = Except.error e →
      runInvocation backend (handle_restore resolve re) fs0 = (fs0, false)) ∧
    (∀ e, resolve ad.input_file = Except.error e →
      runInvocation backend (handle_add_text resolve ad) fs0 = (fs0, false)) ∧
    (∀ e, resolve sk.input_file = Except.error e →
      runInvocation backend (handle_sketch_to_image resolve sk) fs0 = (fs0, false)) ∧
    (∀ e, resolve sa.input_file = Except.error e →
      runInvocation backend (handle_style_transfer resolve sa) fs0 = (fs0, false)) ∧
    (∀ sref b m e, sa.style_ref_image = some sref → sref.isEmpty = false →
      resolve sa.input_file = Except.ok (b, m) → resolve sref = Except.error e →
      runInvocation backend (handle_style_transfer resolve sa) fs0 = (fs0, false)) ∧
    (∀ e, (loadSlots resolve [a.input_file1, a.input_file2, a.input_file3]).2 =
        Except.error e →
      runInvocation backend (handle_compose resolve a) fs0 = (fs0, false)) := by
  refine ⟨?_, ?_, ?_, ?_, ?_, ?_, ?_⟩
  · intro e hr; simp [runInvocation, handle_edit, hr]
  · intro e hr; simp [runInvocation, handle_restore, hr]
  · intro e hr; simp [runInvocation, handle_add_text, hr]
  · intro e hr; simp [runInvocation, handle_sketch_to_image, hr]
  · intro e hr; simp [runInvocation, handle_style_transfer, hr]
  · intro sref b m e hs hne hr hr2
    simp [runInvocation, handle_style_transfer, hr, hs, hr2, pyTruthy, hne]
  · intro e hload
    simp [runInvocation, handle_compose, hload]

/-- Claim C10, witness: an edit invocation whose input does not resolve
leaves the output file exactly as it was and makes no API call. -/
theorem C10_no_write_witness :
    runInvocation hardResponseBackend
        (handle_edit (fun r => Except.error (ResolveFail.notFound r))
          (SingleInArgs.mk "in.png" "out.png" "P" "16:9")) (some [9]) =
      (some [9], false) :=
  (C10_no_write (fun r => Except.error (ResolveFail.notFound r)) hardResponseBackend
      (some [9]) (SingleInArgs.mk "in.png" "out.png" "P" "16:9")
      (SingleInArgs.mk "i" "o" "p" "1:1") (SingleInArgs.mk "i" "o" "p" "1:1")
      (SingleInArgs.mk "i" "o" "p" "1:1") (StyleArgs.mk "i" "o" "p" none "1:1")
      (ComposeArgs.mk "o" "p" none none none "1:1")).1
    (ResolveFail.notFound "in.png") rfl

theorem init_client_sets (env : InitEnv) (s : GlobalState) (c : Nat)
    (h : (init_client env s).2 = some c) : (init_client env s).1.client = some c := by
  cases hs : s.client with
  | some c0 =>
    simp only [init_client, hs] at h ⊢
    exact h
  | none =>
    simp only [init_client, hs] at h ⊢
    cases ha : env.auth with
    | error e =>
      simp only [ha] at h
      simp at h
    | ok proj =>
      simp only [ha] at h ⊢
      by_cases hp : projectId env proj = ""
      · simp only [hp, if_true] at h
        simp at h
      · simp only [hp, if_false] at h ⊢
        cases hct : ctorRetry env.clientCtor max_retries 0 with
        | error e =>
          simp only [hct] at h
          simp at h
        | ok cl =>
          simp only [hct] at h ⊢
          cases hg : env.gcsCtor with
          | error e =>
            simp only [hg] at h
            simp at h
          | ok g =>
            simp only [hg] at h ⊢
            simp at h
            simp [h]

/-- Claim C9: a set client handle short-circuits the initializer, which
returns it unchanged without touching the state, so after any call that
yields a handle every later call, under any environment, is a no-op
returning the same handle: the client is constructed at most once per
process. -/
theorem C9_client_once (env env2 : InitEnv) (s : GlobalState) (c : Nat) :
    (s.client = some c → init_client env s = (s, some c)) ∧
    ((init_client env s).2 = some c →
      init_client env2 (init_client env s).1 = ((init_client env s).1, some c)) := by
  have reuse : ∀ (e3 : InitEnv) (t : GlobalState), t.client = some c →
      init_client e3 t = (t, some c) := by
    intro e3 t ht
    simp only [init_client, ht]
  refine ⟨reuse env s, ?_⟩
  intro h
  exact reuse env2 _ (init_client_sets env s c h)

/-- Claim C9, witness: after a successful initialization from a blank
state, a second call under a different environment returns the same
handle and leaves the state untouched. -/
theorem C9_client_once_witness :
    (init_client envSecondW (init_client envFirstW (GlobalState.mk none none)).1) =
      ((init_client envFirstW (GlobalState.mk none none)).1, some 7) :=
  (C9_client_once envFirstW envSecondW (GlobalState.mk none none) 7).2 rfl

end AIPhotoTool
